import Mathlib

/-
Verification model of the debugger event channel and the test session
coordinator of a VS Code C# extension.

The embedding covers:
  - the packet codec for the debugger events wire protocol,
  - the event-bus variant of the DebugEventListener class: its socket data
    handler, stop handling, close, the process-wide singleton slot, and the
    bind/listen promise of start,
  - the TestRunner class: result summarising in runTest and the project-kind
    branch of debugTest.

Asynchronous callback semantics are made explicit: the JavaScript model is a
single-threaded event loop, so a callback handed to an asynchronous primitive
(such as the close callback of a server socket) never runs inside the call
that registered it; it runs as a later event-loop task. The close callback of
a listening server in particular runs only after every accepted connection is
fully closed, hence strictly after the data and end handlers of that
connection. The model keeps such pending callbacks explicit and delivers them
after the socket events.
-/

/-! ### Character-list substring utilities -/

/-- Whether the second character list is an initial segment of the first. -/
def chListStarts : List Char → List Char → Bool
  | _, [] => true
  | [], _ :: _ => false
  | c :: s, d :: p => c == d && chListStarts s p

/-- Whether the second character list occurs contiguously inside the first. -/
def chListHasSub : List Char → List Char → Bool
  | [], pat => chListStarts [] pat
  | s@(_ :: t), pat => chListStarts s pat || chListHasSub t pat

/-- Whether the pattern string occurs as a contiguous substring. -/
def strContains (s pat : String) : Bool :=
  chListHasSub s.toList pat.toList

/-- Whether some logged line contains the pattern as a substring. Each call to
the logger appendLine method emits one line of output. -/
def logContains (lines : List String) (pat : String) : Bool :=
  lines.any (fun l => strContains l pat)

/-! ### Packet codec

Modelled from the spec: the module debuggerEventsProtocol (imported by the
DebugEventListener source as the decodePacket function and the EventType
constants) is not among the source files, so the codec is taken from the
framing description of the spec: a frame starts with a 4-byte little-endian
event type code, 0 for ProcessLaunched and 1 for DebuggingStopped; a
ProcessLaunched frame carries a 4-byte little-endian signed integer payload,
the target process id; a DebuggingStopped frame has an empty payload and
trailing bytes beyond the header are ignored; a buffer that is too short, or
whose type code is unrecognized, fails decode with MalformedPacket. -/

/-- The decoded debugger event, a tagged union. -/
inductive DebuggerEvent where
  | processLaunched (targetProcessId : Int)
  | debuggingStopped
deriving DecidableEq

/-- The single decode failure of the codec taxonomy. -/
inductive DecodeError where
  | malformedPacket
deriving DecidableEq

/-- Value of four bytes read in little-endian order. -/
def readUInt32LE (b0 b1 b2 b3 : Nat) : Nat :=
  b0 + 256 * b1 + 65536 * b2 + 16777216 * b3

/-- Reinterpret an unsigned 32-bit value as a signed 32-bit integer. -/
def toSigned32 (n : Nat) : Int :=
  if n < 2147483648 then (n : Int) else (n : Int) - 4294967296

/-- Modelled from the spec: decodePacket of the debuggerEventsProtocol
module. Bytes are naturals below 256. -/
def decodePacket (bytes : List Nat) : Except DecodeError DebuggerEvent :=
  match bytes with
  | b0 :: b1 :: b2 :: b3 :: rest =>
    let code := readUInt32LE b0 b1 b2 b3
    if code = 0 then
      match rest with
      | p0 :: p1 :: p2 :: p3 :: _ =>
        Except.ok (DebuggerEvent.processLaunched (toSigned32 (readUInt32LE p0 p1 p2 p3)))
      | _ => Except.error DecodeError.malformedPacket
    else if code = 1 then
      Except.ok DebuggerEvent.debuggingStopped
    else
      Except.error DecodeError.malformedPacket
  | _ => Except.error DecodeError.malformedPacket

/-- True when decodePacket fails on the chunk. -/
def decodeFailed (bytes : List Nat) : Bool :=
  match decodePacket bytes with
  | Except.error _ => true
  | Except.ok _ => false

/-- Modelled from the spec: the EventType string constant keyed to
ProcessLaunched events on the event bus. The exact text is internal to the
missing protocol module; only its distinctness from the stopped key matters. -/
def eventTypeProcessLaunched : String := "processLaunched"

/-- Modelled from the spec: the EventType string constant keyed to
DebuggingStopped events on the event bus. -/
def eventTypeDebuggingStopped : String := "debuggingStopped"

/-! ### Event channel: one accepted connection of the event-bus variant

The DebugEventListener variant with the private event bus. State of one
channel instance while one accepted connection feeds it, as touched by the
socket data handler, the end handler, the private stop handler and close. -/

/-- A JavaScript value as it occurs in this event traffic: a number, or an
array of numbers (the rest-argument array of the fire method). -/
inductive JsVal where
  | num (n : Int)
  | arr (elems : List Int)
deriving DecidableEq

/-- State of a started channel instance observing one accepted connection.
The event bus is the registration-ordered list of (event name, listener id)
pairs; invocations records each listener call together with the argument list
it received; pendingCloseCbs counts close callbacks handed to the server
socket that have not yet run (they run only after the connection is fully
closed); warnings counts the malformed-frame warnings logged. -/
structure ConnState where
  isClosed : Bool := false
  slotHolds : Bool := true
  hasServerSocket : Bool := true
  pendingCloseCbs : Nat := 0
  bus : List (String × Nat) := []
  invocations : List (Nat × List JsVal) := []
  warnings : Nat := 0
deriving DecidableEq

/-- The addListener call of the event bus: appends in registration order. -/
def addListener (s : ConnState) (event : String) (listenerId : Nat) : ConnState :=
  { s with bus := s.bus ++ [(event, listenerId)] }

/-- Registration through onProcessLaunched. -/
def onProcessLaunchedReg (s : ConnState) (listenerId : Nat) : ConnState :=
  addListener s eventTypeProcessLaunched listenerId

/-- Registration through onDebuggingStopped. -/
def onDebuggingStoppedReg (s : ConnState) (listenerId : Nat) : ConnState :=
  addListener s eventTypeDebuggingStopped listenerId

/-- The emit call of the event bus: every listener registered for the event
is invoked, in registration order, with the given argument list. -/
def emitEvt (s : ConnState) (event : String) (params : List JsVal) : ConnState :=
  { s with invocations :=
      s.invocations ++ (s.bus.filter (fun p => p.1 == event)).map (fun p => (p.2, params)) }

/-- The private fire method: it takes rest arguments and hands the whole
rest-argument array to emit as one single argument, so each listener receives
the array, not the spread values. -/
def fireEvent (s : ConnState) (event : String) (args : List Int) : ConnState :=
  emitEvt s event [JsVal.arr args]

/-- The close method, synchronous part: clear the singleton slot when this
instance holds it; return early when already closed; otherwise hand a close
callback to the server socket. The isClosed flag is set only inside that
callback, which runs later. -/
def closeChannel (s : ConnState) : ConnState :=
  let s := if s.slotHolds then { s with slotHolds := false } else s
  if s.isClosed then s
  else if s.hasServerSocket then { s with pendingCloseCbs := s.pendingCloseCbs + 1 }
  else s

/-- The private stop handler: do nothing when the channel is closed,
otherwise fire the stopped event (with an empty rest-argument array) and
close. -/
def onDebuggingStoppedEvt (s : ConnState) : ConnState :=
  if s.isClosed then s
  else closeChannel (fireEvent s eventTypeDebuggingStopped [])

/-- The socket data handler: decode the chunk it was given; on failure log a
warning and drop the chunk; on a ProcessLaunched event fire with the target
process id as the one rest argument; on a DebuggingStopped event run the stop
handler. No bytes are carried over from one chunk to the next. -/
def socketOnData (s : ConnState) (chunk : List Nat) : ConnState :=
  match decodePacket chunk with
  | Except.error _ => { s with warnings := s.warnings + 1 }
  | Except.ok (DebuggerEvent.processLaunched pid) => fireEvent s eventTypeProcessLaunched [pid]
  | Except.ok DebuggerEvent.debuggingStopped => onDebuggingStoppedEvt s

/-- One inbound socket event of a connection: a data chunk, or end of
stream. -/
inductive SocketInput where
  | data (chunk : List Nat)
  | socketEnd
deriving DecidableEq

/-- Dispatch one socket event to its handler; the end handler runs the same
stop handler as an explicit stopped frame. -/
def connStep (s : ConnState) : SocketInput → ConnState
  | SocketInput.data chunk => socketOnData s chunk
  | SocketInput.socketEnd => onDebuggingStoppedEvt s

/-- Process the socket events of a connection in stream order. Server close
callbacks cannot run in between: the server only finishes closing once the
connection is fully closed. -/
def processConn (s : ConnState) (inputs : List SocketInput) : ConnState :=
  inputs.foldl connStep s

/-- Delivery of the pending server close callbacks, after the connection is
gone: each sets the isClosed flag. -/
def flushCloseCbs (s : ConnState) : ConnState :=
  if s.pendingCloseCbs > 0 then { s with isClosed := true, pendingCloseCbs := 0 } else s

/-! ### Event channel: start, close and the process-wide singleton slot

Two channel instances plus the static singleton slot. The start method first
clears any previous slot holder by calling close on it and chains the rest of
start on the returned promise; then it installs itself in the slot and
creates its server socket; then it removes a stale socket file (modelled as
succeeding); then it binds through the listening promise. The close method
synchronously clears the slot when called on the holder and returns early
when already closed; otherwise it returns a promise settled by the server
close callback, which rejects when the callback receives no error and
resolves when it receives one, and which sets the isClosed flag. -/

/-- Per-instance state relevant to start and close. -/
structure ChState where
  hasServerSocket : Bool := false
  listening : Bool := false
  isClosed : Bool := false
deriving DecidableEq

/-- The two channel instances and the static singleton slot. -/
structure Sys where
  slot : Option Nat := none
  ch0 : ChState := {}
  ch1 : ChState := {}
deriving DecidableEq

/-- Read one instance. -/
def getCh (s : Sys) (i : Nat) : ChState :=
  if i = 0 then s.ch0 else s.ch1

/-- Replace one instance. -/
def setCh (s : Sys) (i : Nat) (c : ChState) : Sys :=
  if i = 0 then { s with ch0 := c } else { s with ch1 := c }

/-- How the synchronous part of close leaves its promise. -/
inductive CloseSyncRes where
  | resolvedNow
  | pendingCb
  | neverSettles
deriving DecidableEq

/-- Synchronous part of the close method of instance i: clear the slot when
this instance holds it; an already closed instance returns a resolved
promise; otherwise, when the server socket exists, a close callback is
registered and the promise is pending on it; when the server socket is null
the promise executor registers nothing and the promise never settles. -/
def closeSync (s : Sys) (i : Nat) : Sys × CloseSyncRes :=
  let s := if s.slot = some i then { s with slot := none } else s
  let c := getCh s i
  if c.isClosed then (s, CloseSyncRes.resolvedNow)
  else if c.hasServerSocket then (s, CloseSyncRes.pendingCb)
  else (s, CloseSyncRes.neverSettles)

/-- How the server close callback settles the close promise. -/
inductive SettleRes where
  | resolvedS
  | rejectedS (reason : Option String)
deriving DecidableEq

/-- The server close callback of instance i, run with the error the server
reported (none when the server closed successfully): the branch rejects the
promise with the error exactly when there is no error, resolves it exactly
when there is one, and then sets the isClosed flag. -/
def closeCb (s : Sys) (i : Nat) (err : Option String) : Sys × SettleRes :=
  let c := getCh s i
  let s := setCh s i { c with isClosed := true }
  if err = none then (s, SettleRes.rejectedS err) else (s, SettleRes.resolvedS)

/-- One event observed by the listening promise of start: a server error, or
the listening callback reporting a successful bind. -/
inductive ServerEvent where
  | errorEvt (msg : String)
  | listenOk
deriving DecidableEq

/-- Accumulator of the listening promise: whether the started flag was set,
how the promise settled (none while pending), and the warnings logged. -/
structure ListenFold where
  isStarted : Bool := false
  result : Option (Except String Unit) := none
  warnings : List String := []

/-- One event of the listening promise: an error before the started flag is
set rejects the promise with the error message (a no-op when the promise is
already settled); an error after it is logged as a warning; the listening
callback sets the started flag and resolves the promise. -/
def startListeningStep (a : ListenFold) : ServerEvent → ListenFold
  | ServerEvent.errorEvt msg =>
    if a.isStarted then { a with warnings := a.warnings ++ [msg] }
    else
      match a.result with
      | none => { a with result := some (Except.error msg) }
      | some _ => a
  | ServerEvent.listenOk =>
    let a := { a with isStarted := true }
    match a.result with
    | none => { a with result := some (Except.ok ()) }
    | some _ => a

/-- The listening promise of start, run over the events the server emits. -/
def startListening (events : List ServerEvent) : ListenFold :=
  events.foldl startListeningStep {}

/-- The warning messages among a list of server events. -/
def errWarnings (events : List ServerEvent) : List String :=
  events.filterMap (fun e =>
    match e with
    | ServerEvent.errorEvt m => some m
    | ServerEvent.listenOk => none)

/-- Outcome of the promise returned by start. -/
inductive StartOutcome where
  | resolvedOk
  | rejectedWith (reason : Option String)
  | pendingForever
deriving DecidableEq

/-- The continuations of start that run once the previous holder is dealt
with: install this instance in the slot, create the server socket, remove a
stale socket file (modelled as succeeding), then bind through the listening
promise. -/
def continueStart (s : Sys) (self : Nat) (events : List ServerEvent) : Sys × StartOutcome :=
  let s := { s with slot := some self }
  let s := setCh s self { getCh s self with hasServerSocket := true }
  let fold := startListening events
  let s := setCh s self { getCh s self with listening := fold.isStarted }
  match fold.result with
  | some (Except.ok _) => (s, StartOutcome.resolvedOk)
  | some (Except.error m) => (s, StartOutcome.rejectedWith (some m))
  | none => (s, StartOutcome.pendingForever)

/-- The start method of instance self. oldCloseErr is the error the server
close callback of a previous slot holder receives (none when that server
closes successfully); events are what the own server emits while binding.
The chain first awaits the close promise of the previous holder: when that
promise rejects, none of the continuations of start run. -/
def startOnSys (s : Sys) (self : Nat) (oldCloseErr : Option String)
    (events : List ServerEvent) : Sys × StartOutcome :=
  match s.slot with
  | none => continueStart s self events
  | some old =>
    let p := closeSync s old
    match p.2 with
    | CloseSyncRes.resolvedNow => continueStart p.1 self events
    | CloseSyncRes.neverSettles => (p.1, StartOutcome.pendingForever)
    | CloseSyncRes.pendingCb =>
      let q := closeCb p.1 old oldCloseErr
      match q.2 with
      | SettleRes.resolvedS => continueStart q.1 self events
      | SettleRes.rejectedS reason => (q.1, StartOutcome.rejectedWith reason)

/-! ### Test session coordinator: result summary of runTest

The TestRunner class. Result outcomes are string tags; the three recognised
tag constants live in the protocol module, which is not among the source
files, so their texts are modelled from the spec as three distinct tags. -/

/-- Modelled from the spec: the Passed outcome tag of the protocol module. -/
def testOutcomePassed : String := "passed"

/-- Modelled from the spec: the Failed outcome tag of the protocol module. -/
def testOutcomeFailed : String := "failed"

/-- Modelled from the spec: the Skipped outcome tag of the protocol module. -/
def testOutcomeSkipped : String := "skipped"

/-- One test result of the upstream run-test response. -/
structure DotNetTestResult where
  MethodName : String := ""
  Outcome : String
deriving DecidableEq

/-- One turn of the result loop of the private report method: the switch on
the outcome tag bumps the matching counter of (passed, failed, skipped) and
leaves the accumulator alone on any other tag. -/
def tallyStep (acc : Nat × Nat × Nat) (result : DotNetTestResult) : Nat × Nat × Nat :=
  if result.Outcome = testOutcomeFailed then (acc.1, acc.2.1 + 1, acc.2.2)
  else if result.Outcome = testOutcomePassed then (acc.1 + 1, acc.2.1, acc.2.2)
  else if result.Outcome = testOutcomeSkipped then (acc.1, acc.2.1, acc.2.2 + 1)
  else acc

/-- The counter loop of the private report method, started from three zero
counters. -/
def reportTally (results : List DotNetTestResult) : Nat × Nat × Nat :=
  results.foldl tallyStep (0, 0, 0)

/-- The number of results carrying a given outcome tag. -/
def countOutcome (results : List DotNetTestResult) (tag : String) : Nat :=
  results.countP (fun r => r.Outcome == tag)

/-- The summary template of the private report method, verbatim. -/
def mkSummary (t p f s : Nat) : String :=
  "Total tests: " ++ toString t ++ ". Passed: " ++ toString p ++
    ". Failed: " ++ toString f ++ ". Skipped: " ++ toString s

/-- The summary line the private report method logs: the total is the length
of the result list and the three counters come from the loop. -/
def summaryLine (results : List DotNetTestResult) : String :=
  mkSummary results.length (reportTally results).1 (reportTally results).2.1
    (reportTally results).2.2

/-- The lines the private report method appends: a blank line, the summary,
a blank line. -/
def reportResultsLog (results : List DotNetTestResult) : List String :=
  ["", summaryLine results, ""]

/-- The log of a successful runTest call against a stub upstream returning
the given results: the banner line, a blank line, then the report lines. -/
def runTestLog (testMethod : String) (results : List DotNetTestResult) : List String :=
  ["Running test " ++ testMethod ++ "...", ""] ++ reportResultsLog results

/-! ### Test session coordinator: the project-kind branch of debugTest -/

/-- The project metadata response, reduced to the two markers the branch
reads: whether the legacy marker (DotNetProject) and the build-system marker
(MsBuildProject) are present. -/
structure ProjectInformation where
  DotNetProject : Bool
  MsBuildProject : Bool
deriving DecidableEq

/-- The legacy start-info response shape. -/
structure GetTestStartInfoResponse where
  Executable : String
  Argument : String
  WorkingDirectory : String
deriving DecidableEq

/-- The vstest start-info response shape. -/
structure DebugTestGetStartInfoResponse where
  FileName : String
  Arguments : String
  WorkingDirectory : String
deriving DecidableEq

/-- Which start-info request shape was sent upstream. -/
inductive StartInfoKind where
  | legacyReq
  | vstestReq
deriving DecidableEq

/-- The launch configuration handed to the debugging front-end, reduced to
the fields the private create method sets explicitly. The user-configured
debug options it starts from are cloned and then overwritten on exactly these
fields, so they cannot affect them. -/
structure LaunchConfig where
  name : String
  type : String
  request : String
  debuggerEventsPipeName : Option String
  program : String
  args : String
  cwd : String
deriving DecidableEq

/-- The private create method of the launch configuration: fixed name, kind
and request fields, then the debugger events pipe name (null for the legacy
variant), program, arguments and working directory. -/
def createLaunchConfiguration (program arguments cwd : String)
    (debuggerEventsPipeName : Option String) : LaunchConfig :=
  { name := ".NET Test Launch"
    type := "coreclr"
    request := "launch"
    debuggerEventsPipeName := debuggerEventsPipeName
    program := program
    args := arguments
    cwd := cwd }

/-- The error message thrown when neither project marker is present. -/
def unsupportedProjectMessage : String := "Expected project.json or .csproj project."

/-- Observable trace of one debugTest call: whether an event channel was
constructed and its start called, which start-info request shape was sent,
the launch configuration built, whether the front-end launch command was
invoked, the reason the session failed (if it did), the user-visible error
notification, and whether the catch handler closed the channel. -/
structure DebugTestTrace where
  channelCreated : Bool := false
  channelStartCalled : Bool := false
  requestedStartInfo : Option StartInfoKind := none
  builtConfig : Option LaunchConfig := none
  startDebugCalled : Bool := false
  sessionError : Option String := none
  errorShown : Option String := none
  channelClosedInCatch : Bool := false
deriving DecidableEq

/-- The catch handler of debugTest: show the failure reason to the user and,
when an event channel was created, close it. -/
def debugTestCatch (t : DebugTestTrace) (reason : String) : DebugTestTrace :=
  let t := { t with
    sessionError := some reason
    errorShown := some ("Failed to start debugger: " ++ reason) }
  if t.channelCreated then { t with channelClosedInCatch := true } else t

/-- The continuations of debugTest once a protocol variant is chosen: send
the variant-specific start-info request, build the launch configuration (the
legacy variant passes a null debugger events pipe name, the vstest variant
passes the pipe path of the channel), then invoke the front-end launch
command, falling to the catch handler when it fails. -/
def debugTestLaunchPhase (debugType : StartInfoKind) (t : DebugTestTrace)
    (channelPipePath : String) (legacyResp : GetTestStartInfoResponse)
    (vstestResp : DebugTestGetStartInfoResponse)
    (startDebugError : Option String) : DebugTestTrace :=
  let cfg :=
    match debugType with
    | StartInfoKind.legacyReq =>
      createLaunchConfiguration legacyResp.Executable legacyResp.Argument
        legacyResp.WorkingDirectory none
    | StartInfoKind.vstestReq =>
      createLaunchConfiguration vstestResp.FileName vstestResp.Arguments
        vstestResp.WorkingDirectory (some channelPipePath)
  let t := { t with
    requestedStartInfo := some debugType
    builtConfig := some cfg
    startDebugCalled := true }
  match startDebugError with
  | none => t
  | some msg => debugTestCatch t msg

/-- The debugTest entry point against stub collaborators: saving dirty files
and the project metadata request succeed; the branch on the metadata picks
the legacy variant when the legacy marker is present, otherwise the vstest
variant (constructing and starting an event channel) when the build-system
marker is present, and otherwise throws. channelStartError is the rejection
of the channel start promise (none when start succeeds); startDebugError
likewise for the front-end launch command. A thrown error displays as its
Error prefix plus its message. -/
def debugTest (pInfo : ProjectInformation) (channelPipePath : String)
    (channelStartError : Option String) (legacyResp : GetTestStartInfoResponse)
    (vstestResp : DebugTestGetStartInfoResponse)
    (startDebugError : Option String) : DebugTestTrace :=
  let t0 : DebugTestTrace := {}
  if pInfo.DotNetProject then
    debugTestLaunchPhase StartInfoKind.legacyReq t0 channelPipePath legacyResp
      vstestResp startDebugError
  else if pInfo.MsBuildProject then
    let t1 := { t0 with channelCreated := true, channelStartCalled := true }
    match channelStartError with
    | some msg => debugTestCatch t1 msg
    | none =>
      debugTestLaunchPhase StartInfoKind.vstestReq t1 channelPipePath legacyResp
        vstestResp startDebugError
  else
    debugTestCatch t0 ("Error: " ++ unsupportedProjectMessage)

/-! ### Concrete scenario states -/

/-- A started channel observing one connection, with one process-launched
listener (id 0) and one stopped listener (id 1) registered. -/
def c1Init : ConnState := onDebuggingStoppedReg (onProcessLaunchedReg {} 0) 1

/-- A started channel observing one connection, with one stopped listener
(id 0) registered. -/
def c2Init : ConnState := onDebuggingStoppedReg {} 0

/-- A started channel observing one connection, with one process-launched
listener (id 7) registered. -/
def c6Init : ConnState := onProcessLaunchedReg {} 7

/-- Instance 0 started and listening, holding the singleton slot; instance 1
not yet started. -/
def sysStartedCh0 : Sys :=
  { slot := some 0, ch0 := { hasServerSocket := true, listening := true } }

/-- The stub upstream result list of the run-test scenario: one passed and
one failed result. -/
def c5Results : List DotNetTestResult :=
  [{ MethodName := "MyTests.Should_Add", Outcome := testOutcomePassed },
   { MethodName := "MyTests.Should_Subtract", Outcome := testOutcomeFailed }]
/-! ### Helper lemmas -/

/-- A step of the listening promise preserves a settled result. -/
theorem sls_result (a : ListenFold) (e : ServerEvent) (x : Except String Unit)
    (hr : a.result = some x) : (startListeningStep a e).result = some x := by
  obtain ⟨st, res, w⟩ := a
  replace hr : res = some x := hr
  subst hr
  cases e with
  | errorEvt m => cases st <;> simp [startListeningStep]
  | listenOk => simp [startListeningStep]

/-- A server error event after the started flag is set only appends a
warning. -/
theorem sls_err_started (a : ListenFold) (m : String) (hs : a.isStarted = true) :
    startListeningStep a (ServerEvent.errorEvt m) = { a with warnings := a.warnings ++ [m] } := by
  simp only [startListeningStep]
  rw [if_pos hs]

/-- The listening event preserves the warnings and sets the started flag. -/
theorem sls_listen (a : ListenFold) :
    (startListeningStep a ServerEvent.listenOk).warnings = a.warnings
    ∧ (startListeningStep a ServerEvent.listenOk).isStarted = true := by
  obtain ⟨st, res, w⟩ := a
  cases res <;> simp [startListeningStep]

/-- A settled listening promise stays settled: later server events cannot
change how it resolved or rejected. -/
theorem startListening_settled (es : List ServerEvent) :
    ∀ (a : ListenFold) (x : Except String Unit), a.result = some x →
      (es.foldl startListeningStep a).result = some x := by
  induction es with
  | nil => intro a x h; exact h
  | cons e rest ih =>
    intro a x h
    rw [List.foldl_cons]
    exact ih _ _ (sls_result a e x h)

/-- Once the started flag is set, further server events only append their
messages as warnings. -/
theorem startListening_warned (es : List ServerEvent) :
    ∀ a : ListenFold, a.isStarted = true →
      (es.foldl startListeningStep a).warnings = a.warnings ++ errWarnings es := by
  induction es with
  | nil => intro a _; simp [errWarnings]
  | cons e rest ih =>
    intro a hs
    rw [List.foldl_cons]
    cases e with
    | errorEvt m =>
      rw [sls_err_started a m hs]
      rw [ih { a with warnings := a.warnings ++ [m] } hs]
      simp [errWarnings]
    | listenOk =>
      have h := sls_listen a
      rw [ih _ h.2, h.1]
      simp [errWarnings]

/-- The failed branch of the counter switch. -/
theorem tallyStep_failed (p f s : Nat) (r : DotNetTestResult)
    (h : r.Outcome = testOutcomeFailed) : tallyStep (p, f, s) r = (p, f + 1, s) := by
  unfold tallyStep
  rw [if_pos h]

/-- The passed branch of the counter switch. -/
theorem tallyStep_passed (p f s : Nat) (r : DotNetTestResult)
    (h1 : r.Outcome ≠ testOutcomeFailed) (h2 : r.Outcome = testOutcomePassed) :
    tallyStep (p, f, s) r = (p + 1, f, s) := by
  unfold tallyStep
  rw [if_neg h1, if_pos h2]

/-- The skipped branch of the counter switch. -/
theorem tallyStep_skipped (p f s : Nat) (r : DotNetTestResult)
    (h1 : r.Outcome ≠ testOutcomeFailed) (h2 : r.Outcome ≠ testOutcomePassed)
    (h3 : r.Outcome = testOutcomeSkipped) : tallyStep (p, f, s) r = (p, f, s + 1) := by
  unfold tallyStep
  rw [if_neg h1, if_neg h2, if_pos h3]

/-- The default branch of the counter switch: any other tag is ignored. -/
theorem tallyStep_other (p f s : Nat) (r : DotNetTestResult)
    (h1 : r.Outcome ≠ testOutcomeFailed) (h2 : r.Outcome ≠ testOutcomePassed)
    (h3 : r.Outcome ≠ testOutcomeSkipped) : tallyStep (p, f, s) r = (p, f, s) := by
  unfold tallyStep
  rw [if_neg h1, if_neg h2, if_neg h3]

/-- The counter loop of the report method counts, for each of the three
recognised tags, exactly the results carrying that tag. -/
theorem tallyGo (rs : List DotNetTestResult) :
    ∀ p f s : Nat,
      rs.foldl tallyStep (p, f, s) =
        (p + countOutcome rs testOutcomePassed, f + countOutcome rs testOutcomeFailed,
          s + countOutcome rs testOutcomeSkipped) := by
  induction rs with
  | nil => intro p f s; simp [countOutcome]
  | cons r rest ih =>
    intro p f s
    rw [List.foldl_cons]
    by_cases h1 : r.Outcome = testOutcomeFailed
    · have hp : (r.Outcome == testOutcomePassed) = false := by rw [h1]; decide
      have hf : (r.Outcome == testOutcomeFailed) = true := by rw [h1]; decide
      have hk : (r.Outcome == testOutcomeSkipped) = false := by rw [h1]; decide
      rw [tallyStep_failed p f s r h1, ih]
      simp [countOutcome, List.countP_cons, hp, hf, hk, Prod.mk.injEq]
      omega
    · by_cases h2 : r.Outcome = testOutcomePassed
      · have hp : (r.Outcome == testOutcomePassed) = true := by rw [h2]; decide
        have hf : (r.Outcome == testOutcomeFailed) = false := by rw [h2]; decide
        have hk : (r.Outcome == testOutcomeSkipped) = false := by rw [h2]; decide
        rw [tallyStep_passed p f s r h1 h2, ih]
        simp [countOutcome, List.countP_cons, hp, hf, hk, Prod.mk.injEq]
        omega
      · by_cases h3 : r.Outcome = testOutcomeSkipped
        · have hp : (r.Outcome == testOutcomePassed) = false := by rw [h3]; decide
          have hf : (r.Outcome == testOutcomeFailed) = false := by rw [h3]; decide
          have hk : (r.Outcome == testOutcomeSkipped) = true := by rw [h3]; decide
          rw [tallyStep_skipped p f s r h1 h2 h3, ih]
          simp [countOutcome, List.countP_cons, hp, hf, hk, Prod.mk.injEq]
          omega
        · have hp : (r.Outcome == testOutcomePassed) = false := beq_eq_false_iff_ne.mpr h2
          have hf : (r.Outcome == testOutcomeFailed) = false := beq_eq_false_iff_ne.mpr h1
          have hk : (r.Outcome == testOutcomeSkipped) = false := beq_eq_false_iff_ne.mpr h3
          rw [tallyStep_other p f s r h1 h2 h3, ih]
          simp [countOutcome, List.countP_cons, hp, hf, hk, Prod.mk.injEq]

/-- The three counters of the report loop equal the per-tag counts. -/
theorem reportTally_eq (rs : List DotNetTestResult) :
    reportTally rs =
      (countOutcome rs testOutcomePassed, countOutcome rs testOutcomeFailed,
        countOutcome rs testOutcomeSkipped) := by
  have h := tallyGo rs 0 0 0
  simpa [reportTally] using h

/-- One result contributes at most one to the sum of the three per-tag
counts: the three tags are distinct. -/
theorem outcomeContrib_le_one (a : DotNetTestResult) :
    (if a.Outcome == testOutcomePassed then 1 else 0)
      + (if a.Outcome == testOutcomeFailed then 1 else 0)
      + (if a.Outcome == testOutcomeSkipped then 1 else 0) ≤ 1 := by
  by_cases h1 : a.Outcome = testOutcomePassed
  · have hf : (a.Outcome == testOutcomeFailed) = false := by rw [h1]; decide
    have hk : (a.Outcome == testOutcomeSkipped) = false := by rw [h1]; decide
    simp [h1, hf, hk]
    decide
  · by_cases h2 : a.Outcome = testOutcomeFailed
    · have hp : (a.Outcome == testOutcomePassed) = false := by rw [h2]; decide
      have hk : (a.Outcome == testOutcomeSkipped) = false := by rw [h2]; decide
      simp [h2, hp, hk]
      decide
    · have hp : (a.Outcome == testOutcomePassed) = false := beq_eq_false_iff_ne.mpr h1
      have hf : (a.Outcome == testOutcomeFailed) = false := beq_eq_false_iff_ne.mpr h2
      simp [hp, hf]
      split <;> omega

/-- The sum of the three per-tag counts never exceeds the list length. -/
theorem countOutcome_sum_le (rs : List DotNetTestResult) :
    countOutcome rs testOutcomePassed + countOutcome rs testOutcomeFailed
      + countOutcome rs testOutcomeSkipped ≤ rs.length := by
  induction rs with
  | nil => simp [countOutcome]
  | cons a rest ih =>
    have h := outcomeContrib_le_one a
    simp only [countOutcome, List.countP_cons, List.length_cons] at *
    omega

/-- A result carrying none of the three tags makes the sum of the per-tag
counts strictly smaller than the list length. -/
theorem countOutcome_sum_lt (rs : List DotNetTestResult) (r : DotNetTestResult)
    (hm : r ∈ rs) (h1 : r.Outcome ≠ testOutcomePassed) (h2 : r.Outcome ≠ testOutcomeFailed)
    (h3 : r.Outcome ≠ testOutcomeSkipped) :
    countOutcome rs testOutcomePassed + countOutcome rs testOutcomeFailed
      + countOutcome rs testOutcomeSkipped < rs.length := by
  induction rs with
  | nil => cases hm
  | cons a rest ih =>
    rcases List.mem_cons.mp hm with hra | hmem
    · have hp : (a.Outcome == testOutcomePassed) = false := by
        rw [← hra] at *; exact beq_eq_false_iff_ne.mpr h1
      have hf : (a.Outcome == testOutcomeFailed) = false := by
        rw [← hra] at *; exact beq_eq_false_iff_ne.mpr h2
      have hk : (a.Outcome == testOutcomeSkipped) = false := by
        rw [← hra] at *; exact beq_eq_false_iff_ne.mpr h3
      have h := countOutcome_sum_le rest
      simp [countOutcome, List.countP_cons, List.length_cons, hp, hf, hk] at *
      omega
    · have h := ih hmem
      have hc := outcomeContrib_le_one a
      simp only [countOutcome, List.countP_cons, List.length_cons] at *
      omega

/-! ### Claim theorems -/

/-- Claim C1, counterexample: the claim says a frame split across two read
callbacks is still decoded thanks to a per-connection reassembly buffer. The
concatenation of the two chunks decodes to ProcessLaunched with process id 5,
yet processing the two chunks one data callback at a time dispatches nothing
and logs two malformed-frame warnings: the data handler decodes each chunk
in isolation and keeps no buffer. -/
theorem c1_counterexample :
    decodePacket ([0, 0, 0, 0] ++ [5, 0, 0, 0])
      = Except.ok (DebuggerEvent.processLaunched 5)
    ∧ (processConn c1Init [SocketInput.data [0, 0, 0, 0],
        SocketInput.data [5, 0, 0, 0]]).invocations = []
    ∧ (processConn c1Init [SocketInput.data [0, 0, 0, 0],
        SocketInput.data [5, 0, 0, 0]]).warnings = 2 :=
  ⟨rfl, rfl, rfl⟩

/-- Claim C1, amended: on each inbound data chunk the channel attempts a
decode of that chunk alone and keeps no reassembly buffer: a sequence of
chunks that each fail to decode leaves the channel state unchanged except
for one logged warning per chunk (no dispatch, no carried bytes), so a frame
split across two read callbacks is never decoded; a chunk that is one
complete ProcessLaunched frame is decoded and dispatched to the registered
listeners. -/
theorem c1_amended :
    (∀ (s : ConnState) (cs : List (List Nat)),
      (∀ c ∈ cs, decodeFailed c = true) →
      processConn s (cs.map SocketInput.data)
        = { s with warnings := s.warnings + cs.length })
    ∧ (processConn c1Init [SocketInput.data [0, 0, 0, 0, 146, 16, 0, 0]]).invocations
        = [(0, [JsVal.arr [4242]])] := by
  constructor
  · intro s cs h
    induction cs generalizing s with
    | nil => rfl
    | cons c rest ih =>
      have hc := h c (List.mem_cons_self c rest)
      have hrest : ∀ x ∈ rest, decodeFailed x = true :=
        fun x hx => h x (List.mem_cons_of_mem c hx)
      have hstep : socketOnData s c = { s with warnings := s.warnings + 1 } := by
        unfold decodeFailed at hc
        unfold socketOnData
        cases hdec : decodePacket c with
        | error e => rfl
        | ok v => rw [hdec] at hc; exact Bool.noConfusion hc
      show processConn (socketOnData s c) (rest.map SocketInput.data)
        = { s with warnings := s.warnings + (rest.length + 1) }
      rw [hstep, ih _ hrest]
      show ({ s with warnings := s.warnings + 1 + rest.length } : ConnState)
        = { s with warnings := s.warnings + (rest.length + 1) }
      rw [show s.warnings + 1 + rest.length = s.warnings + (rest.length + 1) from by omega]
  · rfl

/-- Claim C1, witness of the amended claim at the split frame of the
counterexample: the two halves are each dropped with one warning. -/
theorem c1_amended_witness :
    processConn c1Init ([[0, 0, 0, 0], [5, 0, 0, 0]].map SocketInput.data)
      = { c1Init with warnings := c1Init.warnings + 2 } :=
  c1_amended.1 c1Init [[0, 0, 0, 0], [5, 0, 0, 0]] (by decide)

/-- Claim C2: an explicit DebuggingStopped frame followed by connection end
notifies the registered stopped listener twice, not once, and the close path
runs twice (two close callbacks are registered on the server socket): the
closed flag is set only inside the asynchronous server close callback, which
cannot run between the two socket events, so the guard of the stop handler
sees the channel as open both times. The flag becomes true only once the
pending callbacks are delivered, after the connection is gone. -/
theorem c2_double_stop_notification :
    (processConn c2Init [SocketInput.data [1, 0, 0, 0], SocketInput.socketEnd]).invocations
      = [(0, [JsVal.arr []]), (0, [JsVal.arr []])]
    ∧ (processConn c2Init [SocketInput.data [1, 0, 0, 0],
        SocketInput.socketEnd]).pendingCloseCbs = 2
    ∧ (flushCloseCbs (processConn c2Init [SocketInput.data [1, 0, 0, 0],
        SocketInput.socketEnd])).isClosed = true :=
  ⟨rfl, rfl, rfl⟩

/-- Claim C3: starting a second channel while a first one is active does not
leave the second discoverable in the singleton slot. The close promise of
the first holder rejects when its server closes successfully (inverted error
branch in the close callback), so the continuation of start that would
install the second instance never runs: the start promise of the second
channel rejects, the slot ends up empty, and the second instance never even
creates its server socket or binds. Only the closing of the first holder and
the synchronous slot clearing happen. -/
theorem c3_second_start_leaves_slot_empty :
    (startOnSys sysStartedCh0 1 none [ServerEvent.listenOk]).2
      = StartOutcome.rejectedWith none
    ∧ (startOnSys sysStartedCh0 1 none [ServerEvent.listenOk]).1.slot = none
    ∧ (startOnSys sysStartedCh0 1 none [ServerEvent.listenOk]).1.ch1.hasServerSocket = false
    ∧ (startOnSys sysStartedCh0 1 none [ServerEvent.listenOk]).1.ch1.listening = false
    ∧ (startOnSys sysStartedCh0 1 none [ServerEvent.listenOk]).1.ch0.isClosed = true :=
  ⟨rfl, rfl, rfl, rfl, rfl⟩

/-- Claim C4: the first close of a started channel does not succeed: its
promise is settled by the server close callback, whose branch rejects
exactly when the server reported no error, so a successful close of the
server socket rejects the close promise (with the null error). A second
close after the callback has run is indeed a no-op: it resolves immediately
and leaves the state unchanged. -/
theorem c4_close_rejects_on_successful_close :
    (closeSync sysStartedCh0 0).2 = CloseSyncRes.pendingCb
    ∧ (closeCb (closeSync sysStartedCh0 0).1 0 none).2 = SettleRes.rejectedS none
    ∧ (closeSync (closeCb (closeSync sysStartedCh0 0).1 0 none).1 0).2
        = CloseSyncRes.resolvedNow
    ∧ (closeSync (closeCb (closeSync sysStartedCh0 0).1 0 none).1 0).1
        = (closeCb (closeSync sysStartedCh0 0).1 0 none).1 :=
  ⟨rfl, rfl, rfl, rfl⟩

/-- Claim C6: a decoded ProcessLaunched frame with target process id 4242
invokes the registered listener with the one-element array containing 4242
as its single argument, not with the number 4242: the private fire method
hands its whole rest-argument array to emit as one argument. -/
theorem c6_listener_receives_array :
    (processConn c6Init [SocketInput.data [0, 0, 0, 0, 146, 16, 0, 0]]).invocations
      = [(7, [JsVal.arr [4242]])]
    ∧ ([JsVal.arr [4242]] : List JsVal) ≠ [JsVal.num 4242] :=
  ⟨rfl, by decide⟩

/-- Claim C5, counterexample: for the stub upstream returning one passed and
one failed result, no line of the runTest log contains the claimed string
with its trailing period: the summary template of the report method ends
after the skipped counter without a final period. -/
theorem c5_counterexample :
    logContains (runTestLog "MyTests.Should_Add" c5Results)
      "Total tests: 2. Passed: 1. Failed: 1. Skipped: 0." = false := by
  decide

/-- Claim C5, amended: the summary line reports the list length as the total
and the per-tag counts of the three outcomes, and for the stub scenario with
one passed and one failed result the log contains the summary string without
a trailing period. -/
theorem c5_amended :
    (∀ results : List DotNetTestResult,
      summaryLine results
        = mkSummary results.length (countOutcome results testOutcomePassed)
            (countOutcome results testOutcomeFailed)
            (countOutcome results testOutcomeSkipped))
    ∧ logContains (runTestLog "MyTests.Should_Add" c5Results)
        "Total tests: 2. Passed: 1. Failed: 1. Skipped: 0" = true := by
  constructor
  · intro results
    unfold summaryLine
    rw [reportTally_eq]
  · decide

/-- Claim C7: a debugTest call whose project metadata has neither the legacy
nor the build-system marker fails with the unsupported-project error, shows
a user-visible error notification containing the reason, creates no event
channel, sends no start-info request, builds no launch configuration, and
never invokes the front-end launch command. -/
theorem c7_unsupported_project (channelPipePath : String)
    (channelStartError : Option String) (legacyResp : GetTestStartInfoResponse)
    (vstestResp : DebugTestGetStartInfoResponse) (startDebugError : Option String)
    (pInfo : ProjectInformation) (h1 : pInfo.DotNetProject = false)
    (h2 : pInfo.MsBuildProject = false) :
    (debugTest pInfo channelPipePath channelStartError legacyResp vstestResp
        startDebugError).sessionError = some ("Error: " ++ unsupportedProjectMessage)
    ∧ (debugTest pInfo channelPipePath channelStartError legacyResp vstestResp
        startDebugError).channelCreated = false
    ∧ (debugTest pInfo channelPipePath channelStartError legacyResp vstestResp
        startDebugError).channelStartCalled = false
    ∧ (debugTest pInfo channelPipePath channelStartError legacyResp vstestResp
        startDebugError).requestedStartInfo = none
    ∧ (debugTest pInfo channelPipePath channelStartError legacyResp vstestResp
        startDebugError).builtConfig = none
    ∧ (debugTest pInfo channelPipePath channelStartError legacyResp vstestResp
        startDebugError).startDebugCalled = false
    ∧ (debugTest pInfo channelPipePath channelStartError legacyResp vstestResp
        startDebugError).errorShown
        = some ("Failed to start debugger: " ++ ("Error: " ++ unsupportedProjectMessage))
    ∧ strContains ("Failed to start debugger: " ++ ("Error: " ++ unsupportedProjectMessage))
        unsupportedProjectMessage = true := by
  obtain ⟨d, m⟩ := pInfo
  replace h1 : d = false := h1
  replace h2 : m = false := h2
  subst h1
  subst h2
  exact ⟨rfl, rfl, rfl, rfl, rfl, rfl, rfl, by decide⟩

/-- Claim C7, witness at the stub metadata with both markers absent. -/
theorem c7_unsupported_project_witness :
    (debugTest ⟨false, false⟩ "" none ⟨"", "", ""⟩ ⟨"", "", ""⟩ none).sessionError
      = some ("Error: " ++ unsupportedProjectMessage)
    ∧ (debugTest ⟨false, false⟩ "" none ⟨"", "", ""⟩ ⟨"", "", ""⟩ none).channelCreated = false
    ∧ (debugTest ⟨false, false⟩ "" none ⟨"", "", ""⟩ ⟨"", "", ""⟩ none).channelStartCalled = false
    ∧ (debugTest ⟨false, false⟩ "" none ⟨"", "", ""⟩ ⟨"", "", ""⟩ none).requestedStartInfo = none
    ∧ (debugTest ⟨false, false⟩ "" none ⟨"", "", ""⟩ ⟨"", "", ""⟩ none).builtConfig = none
    ∧ (debugTest ⟨false, false⟩ "" none ⟨"", "", ""⟩ ⟨"", "", ""⟩ none).startDebugCalled = false
    ∧ (debugTest ⟨false, false⟩ "" none ⟨"", "", ""⟩ ⟨"", "", ""⟩ none).errorShown
      = some ("Failed to start debugger: " ++ ("Error: " ++ unsupportedProjectMessage))
    ∧ strContains ("Failed to start debugger: " ++ ("Error: " ++ unsupportedProjectMessage))
        unsupportedProjectMessage = true :=
  c7_unsupported_project "" none ⟨"", "", ""⟩ ⟨"", "", ""⟩ none ⟨false, false⟩ rfl rfl

/-- Claim C8: a server error event arriving before the listening callback
rejects the start promise with that error message, while a start whose
server reports the listening callback first resolves, and any error events
after the started flag is set are only logged as warnings and never change
how the promise settled. -/
theorem c8_bind_failure (msg : String) (rest : List ServerEvent) :
    (startOnSys {} 0 none (ServerEvent.errorEvt msg :: rest)).2
      = StartOutcome.rejectedWith (some msg)
    ∧ (startOnSys {} 0 none (ServerEvent.listenOk :: rest)).2 = StartOutcome.resolvedOk
    ∧ (startListening (ServerEvent.listenOk :: rest)).warnings = errWarnings rest := by
  have hres1 : (startListening (ServerEvent.errorEvt msg :: rest)).result
      = some (Except.error msg) := by
    unfold startListening
    rw [List.foldl_cons]
    exact startListening_settled rest _ _ rfl
  have hres2 : (startListening (ServerEvent.listenOk :: rest)).result
      = some (Except.ok ()) := by
    unfold startListening
    rw [List.foldl_cons]
    exact startListening_settled rest _ _ rfl
  refine ⟨?_, ?_, ?_⟩
  · show (continueStart {} 0 (ServerEvent.errorEvt msg :: rest)).2 = _
    simp only [continueStart]
    rw [hres1]
  · show (continueStart {} 0 (ServerEvent.listenOk :: rest)).2 = _
    simp only [continueStart]
    rw [hres2]
  · unfold startListening
    rw [List.foldl_cons]
    have h := sls_listen ({} : ListenFold)
    rw [startListening_warned rest _ h.2, h.1]
    exact List.nil_append _

/-- Claim C9: the reported total of the summary is the length of the result
list, and a result whose outcome tag is none of the three recognised tags is
counted in no per-tag counter, so the sum of the three reported counts is
strictly below the reported total. -/
theorem c9_unknown_outcome (rs : List DotNetTestResult) (r : DotNetTestResult)
    (hm : r ∈ rs) (h1 : r.Outcome ≠ testOutcomePassed)
    (h2 : r.Outcome ≠ testOutcomeFailed) (h3 : r.Outcome ≠ testOutcomeSkipped) :
    summaryLine rs
      = mkSummary rs.length (reportTally rs).1 (reportTally rs).2.1 (reportTally rs).2.2
    ∧ (reportTally rs).1 = countOutcome rs testOutcomePassed
    ∧ (reportTally rs).2.1 = countOutcome rs testOutcomeFailed
    ∧ (reportTally rs).2.2 = countOutcome rs testOutcomeSkipped
    ∧ (reportTally rs).1 + (reportTally rs).2.1 + (reportTally rs).2.2 < rs.length := by
  have ht := reportTally_eq rs
  refine ⟨rfl, ?_, ?_, ?_, ?_⟩
  · rw [ht]
  · rw [ht]
  · rw [ht]
  · rw [ht]
    exact countOutcome_sum_lt rs r hm h1 h2 h3

/-- Claim C9, witness: one result with the unrecognised tag notrun gives a
reported total of one and three counters summing to zero. -/
theorem c9_unknown_outcome_witness :
    (reportTally [({ MethodName := "M", Outcome := "notrun" } : DotNetTestResult)]).1
      + (reportTally [({ MethodName := "M", Outcome := "notrun" } : DotNetTestResult)]).2.1
      + (reportTally [({ MethodName := "M", Outcome := "notrun" } : DotNetTestResult)]).2.2
      < [({ MethodName := "M", Outcome := "notrun" } : DotNetTestResult)].length :=
  (c9_unknown_outcome [{ MethodName := "M", Outcome := "notrun" }]
    { MethodName := "M", Outcome := "notrun" } (by decide) (by decide) (by decide)
    (by decide)).2.2.2.2

/-- Claim C10: a debugTest call whose project metadata carries both markers
selects the legacy variant: no event channel is created or started, the
legacy start-info request shape is sent, and the launch configuration is the
legacy one, whose debugger events pipe name is null. -/
theorem c10_legacy_selected (channelPipePath : String)
    (channelStartError : Option String) (legacyResp : GetTestStartInfoResponse)
    (vstestResp : DebugTestGetStartInfoResponse) (startDebugError : Option String)
    (pInfo : ProjectInformation) (h1 : pInfo.DotNetProject = true)
    (h2 : pInfo.MsBuildProject = true) :
    (debugTest pInfo channelPipePath channelStartError legacyResp vstestResp
        startDebugError).channelCreated = false
    ∧ (debugTest pInfo channelPipePath channelStartError legacyResp vstestResp
        startDebugError).channelStartCalled = false
    ∧ (debugTest pInfo channelPipePath channelStartError legacyResp vstestResp
        startDebugError).requestedStartInfo = some StartInfoKind.legacyReq
    ∧ (debugTest pInfo channelPipePath channelStartError legacyResp vstestResp
        startDebugError).builtConfig
      = some (createLaunchConfiguration legacyResp.Executable legacyResp.Argument
          legacyResp.WorkingDirectory none)
    ∧ (createLaunchConfiguration legacyResp.Executable legacyResp.Argument
        legacyResp.WorkingDirectory none).debuggerEventsPipeName = none := by
  obtain ⟨d, m⟩ := pInfo
  replace h1 : d = true := h1
  subst h1
  cases startDebugError with
  | none => exact ⟨rfl, rfl, rfl, rfl, rfl⟩
  | some errMsg => exact ⟨rfl, rfl, rfl, rfl, rfl⟩

/-- Claim C10, witness at stub metadata with both markers present. -/
theorem c10_legacy_selected_witness :
    (debugTest ⟨true, true⟩ "pipe" none ⟨"dotnet", "test", "wd"⟩ ⟨"f", "a", "w"⟩
        none).channelCreated = false
    ∧ (debugTest ⟨true, true⟩ "pipe" none ⟨"dotnet", "test", "wd"⟩ ⟨"f", "a", "w"⟩
        none).channelStartCalled = false
    ∧ (debugTest ⟨true, true⟩ "pipe" none ⟨"dotnet", "test", "wd"⟩ ⟨"f", "a", "w"⟩
        none).requestedStartInfo = some StartInfoKind.legacyReq
    ∧ (debugTest ⟨true, true⟩ "pipe" none ⟨"dotnet", "test", "wd"⟩ ⟨"f", "a", "w"⟩
        none).builtConfig
      = some (createLaunchConfiguration "dotnet" "test" "wd" none)
    ∧ (createLaunchConfiguration "dotnet" "test" "wd" none).debuggerEventsPipeName = none :=
  c10_legacy_selected "pipe" none ⟨"dotnet", "test", "wd"⟩ ⟨"f", "a", "w"⟩ none
    ⟨true, true⟩ rfl rfl
